import Mathlib

/-!
# QtScrcpy: the session window `VideoForm` (videoform.cpp)

A shallow embedding of `VideoForm`, the object that owns one mirroring
session: the server connection, the decoder, the frame store, the input relay
and the window that shows the video.

The form is a record of its own members together with the observable state of
its collaborators.  Every call the form makes on a collaborator (server,
decoder, frame store, input relay, video widget, tool form, the Qt widget
machinery) is appended, in program order, to the call log `calls`.  Handlers
are state transformers; the properties below are read off the final state and
the call log.

Integers are C++ `int`; every quantity handled here is a pixel coordinate or a
size and stays far inside the 32 bit range, so they are embedded as `Int`.
-/

namespace QtScrcpy

/-! ## Qt value types -/

/-- Qt value type `QPoint`: integer coordinates. -/
structure QPoint where
  x : Int
  y : Int
deriving DecidableEq, Repr

/-- Component-wise difference, `operator-(const QPoint &, const QPoint &)`. -/
def QPoint.sub (a b : QPoint) : QPoint := ⟨a.x - b.x, a.y - b.y⟩

instance : Sub QPoint := ⟨QPoint.sub⟩

/-- Qt value type `QSize`; a default constructed `QSize()` is `(-1, -1)`. -/
structure QSize where
  width : Int
  height : Int
deriving DecidableEq, Repr

/-- The default constructed (invalid) size `QSize()`. -/
def QSize.invalid : QSize := ⟨-1, -1⟩

/-- Qt value type `QRect`, stored the way Qt stores it: the two corner points,
both inclusive (`x2 = x1 + width - 1`). -/
structure QRect where
  x1 : Int
  y1 : Int
  x2 : Int
  y2 : Int
deriving DecidableEq, Repr

/-- Constructor `QRect(int left, int top, int width, int height)`. -/
def QRect.ofXYWH (left top width height : Int) : QRect :=
  ⟨left, top, left + width - 1, top + height - 1⟩

/-- Accessor `QRect::width()`. -/
def QRect.width (r : QRect) : Int := r.x2 - r.x1 + 1

/-- Accessor `QRect::height()`. -/
def QRect.height (r : QRect) : Int := r.y2 - r.y1 + 1

/-- Accessor `QRect::size()`. -/
def QRect.size (r : QRect) : QSize := ⟨r.width, r.height⟩

/-- Accessor `QRect::topLeft()`. -/
def QRect.topLeft (r : QRect) : QPoint := ⟨r.x1, r.y1⟩

/-- Accessor `QRect::center()`: `((x1 + x2) / 2, (y1 + y2) / 2)` with C++
integer division (truncation toward zero). -/
def QRect.center (r : QRect) : QPoint :=
  ⟨Int.tdiv (r.x1 + r.x2) 2, Int.tdiv (r.y1 + r.y2) 2⟩

/-- Test `QRect::contains(const QPoint &p, bool proper = false)` with
`proper = false`, following qrect.cpp: the rectangle is normalised per axis
and both edges are inclusive. -/
def QRect.contains (r : QRect) (p : QPoint) : Bool :=
  let l := if r.x2 < r.x1 - 1 then r.x2 else r.x1
  let rr := if r.x2 < r.x1 - 1 then r.x1 else r.x2
  if p.x < l ∨ p.x > rr then false
  else
    let t := if r.y2 < r.y1 - 1 then r.y2 else r.y1
    let b := if r.y2 < r.y1 - 1 then r.y1 else r.y2
    if p.y < t ∨ p.y > b then false else true

/-- Template `qMin` on `int`. -/
def qMin (a b : Int) : Int := if a < b then a else b

/-- Flag `Qt::LeftButton` of `Qt::MouseButton`. -/
def Qt.LeftButton : Nat := 1

/-- Key `Qt::Key_Escape`. -/
def Qt.Key_Escape : Int := 0x01000000

/-- Kind of a mouse event (`QEvent::Type`, restricted to the three kinds the
form receives). -/
inductive MouseEventType
  | MouseButtonPress
  | MouseButtonRelease
  | MouseMove
deriving DecidableEq, Repr

/-- The part of `QMouseEvent` the form reads or writes.  `localPos` is the
event position rounded to integers: the form reads it only through `pos()`
and `localPos().toPoint()`, which both round, and writes only integer
points. -/
structure QMouseEvent where
  type : MouseEventType
  localPos : QPoint
  globalPos : QPoint
  button : Nat
  buttons : Nat
  modifiers : Nat
  accepted : Bool
deriving DecidableEq, Repr

/-- Accessor `QMouseEvent::pos()`, which is `localPos().toPoint()`. -/
def QMouseEvent.pos (e : QMouseEvent) : QPoint := e.localPos

/-- The part of `QWheelEvent` the form reads; `globalPosF` is only passed
on. -/
structure QWheelEvent where
  pos : QPoint
  globalPosF : QPoint
  delta : Int
  buttons : Nat
  modifiers : Nat
  orientation : Nat
deriving DecidableEq, Repr

/-- The part of `QKeyEvent` the form reads. -/
structure QKeyEvent where
  press : Bool
  key : Int
  modifiers : Nat
  isAutoRepeat : Bool
deriving DecidableEq, Repr

/-! ## Control events and decoded frames -/

/-- Android key codes (`enum AndroidKeycode`, a C `int` enumeration). -/
abbrev AndroidKeycode := Int

/-- Modelled from the spec: the values of the `AndroidKeycode` enumerators the
form uses; keycodes.h is not part of the sources, the values are those of the
Android NDK. -/
def AKEYCODE_HOME : AndroidKeycode := 3
/-- Modelled from the spec: NDK value of the enumerator (keycodes.h is not part
of the sources). -/
def AKEYCODE_BACK : AndroidKeycode := 4
/-- Modelled from the spec: NDK value of the enumerator (keycodes.h is not part
of the sources). -/
def AKEYCODE_VOLUME_UP : AndroidKeycode := 24
/-- Modelled from the spec: NDK value of the enumerator (keycodes.h is not part
of the sources). -/
def AKEYCODE_VOLUME_DOWN : AndroidKeycode := 25
/-- Modelled from the spec: NDK value of the enumerator (keycodes.h is not part
of the sources). -/
def AKEYCODE_POWER : AndroidKeycode := 26
/-- Modelled from the spec: NDK value of the enumerator (keycodes.h is not part
of the sources). -/
def AKEYCODE_MENU : AndroidKeycode := 82
/-- Modelled from the spec: NDK value of the enumerator (keycodes.h is not part
of the sources). -/
def AKEYCODE_APP_SWITCH : AndroidKeycode := 187

/-- Key event actions (`enum AndroidKeyeventAction`). -/
inductive AndroidKeyeventAction
  | AKEY_EVENT_ACTION_DOWN
  | AKEY_EVENT_ACTION_UP
  | AKEY_EVENT_ACTION_MULTIPLE
deriving DecidableEq, Repr

/-- Meta state bit set (`enum AndroidMetastate`). -/
abbrev AndroidMetastate := Nat

/-- Enumerator `AMETA_NONE`: no modifier. -/
def AMETA_NONE : AndroidMetastate := 0

/-- Device commands carried by a command event. -/
inductive ControlEventCommand
  | CONTROL_EVENT_COMMAND_BACK_OR_SCREEN_ON
deriving DecidableEq, Repr

/-- Event kinds, `ControlEvent::ControlEventType`. -/
inductive ControlEventType
  | CET_KEYCODE
  | CET_TEXT
  | CET_MOUSE
  | CET_SCROLL
  | CET_COMMAND
  | CET_TOUCH
deriving DecidableEq, Repr

/-- Payload of a control event. -/
inductive ControlEventData
  | empty
  | keycode (action : AndroidKeyeventAction) (keycode : AndroidKeycode)
      (metaState : AndroidMetastate)
  | command (action : ControlEventCommand)
deriving DecidableEq, Repr

/-- Modelled from the spec: the class `ControlEvent` (controlevent.h is not part
of the sources): an event kind with the payload last set on it. -/
structure ControlEvent where
  type : ControlEventType
  data : ControlEventData
deriving DecidableEq, Repr

/-- Modelled from the spec: `new ControlEvent(type)`.  The plain `new`
expression never yields a null pointer (it throws on exhaustion), so the
result is always `some`; the form still tests it. -/
def ControlEvent.new (type : ControlEventType) : Option ControlEvent :=
  some ⟨type, ControlEventData.empty⟩

/-- Modelled from the spec: `ControlEvent::setKeycodeEventData`. -/
def ControlEvent.setKeycodeEventData (e : ControlEvent) (action : AndroidKeyeventAction)
    (keycode : AndroidKeycode) (metaState : AndroidMetastate) : ControlEvent :=
  { e with data := ControlEventData.keycode action keycode metaState }

/-- Modelled from the spec: `ControlEvent::setCommandEventData`. -/
def ControlEvent.setCommandEventData (e : ControlEvent) (action : ControlEventCommand) :
    ControlEvent :=
  { e with data := ControlEventData.command action }

/-- The part of a decoded `AVFrame` the form reads: dimensions, the three
plane pointers (as addresses) and the three strides. -/
structure AVFrame where
  width : Int
  height : Int
  data0 : Nat
  data1 : Nat
  data2 : Nat
  linesize0 : Int
  linesize1 : Int
  linesize2 : Int
deriving DecidableEq, Repr

/-- A `DeviceSocket *`, identified by its address. -/
abbrev DeviceSocket := Nat

/-! ## The call log -/

/-- The two style sheets `updateStyleSheet` installs (phone-v.png and
phone-h.png border images). -/
inductive StyleSheet
  | phoneV
  | phoneH
deriving DecidableEq, Repr

/-- A call made by the form on one of its collaborators or on its own Qt
widget base. -/
inductive Call
  /- m_server -/
  | serverStart (serial : String) (localPort : Nat) (maxSize bitRate : Nat) (crop : String)
  | serverConnectTo
  | serverStop
  | serverDelete
  /- m_decoder -/
  | decoderSetFrames
  | decoderSetDeviceSocket (socket : Option DeviceSocket)
  | decoderStartDecode
  | decoderStopDecode
  /- m_frames -/
  | framesInit
  | framesLock
  | framesConsumeRenderedFrame
  | framesUnLock
  | framesDeInit
  /- m_inputConvert -/
  | inputSetDeviceSocket (socket : Option DeviceSocket)
  | inputSendControlEvent (event : ControlEvent)
  | inputMouseEvent (event : QMouseEvent) (frameSize showSize : QSize)
  | inputWheelEvent (event : QWheelEvent) (frameSize showSize : QSize)
  | inputKeyEvent (event : QKeyEvent) (frameSize showSize : QSize)
  /- ui->videoWidget, ui->loadingWidget -/
  | videoWidgetHide
  | videoWidgetShow
  | videoWidgetSetFrameSize (frameSize : QSize)
  | videoWidgetUpdateTextures (dataY dataU dataV : Nat) (linesizeY linesizeU linesizeV : Int)
  | loadingWidgetClose
  /- m_toolForm -/
  | toolFormNew
  | toolFormMove (x y : Int)
  | toolFormSetVisible (visible : Bool)
  /- QWidget base of the form -/
  | close
  | setWindowTitle (title : String)
  | resize (size : QSize)
  | move (pos : QPoint)
  | showNormal
  | showFullScreen
  | setStyleSheet (sheet : StyleSheet)
  | setContentsMargins (left top right bottom : Int)
  | drawPrimitive
  | uiDelete
deriving DecidableEq, Repr

/-! ## The form -/

/-- State of a `VideoForm`: its members, the Qt state of its window and of the
video widget, and what its collaborators hold. -/
structure VideoForm where
  /- members of VideoForm -/
  m_serial : String
  m_maxSize : Nat
  m_bitRate : Nat
  /-- Member `frameSize`: the frame size last recorded by `updateShowSize`. -/
  frameSize : QSize
  m_dragPosition : QPoint
  /-- Whether `m_toolForm` is non-null. -/
  m_toolForm : Bool
  /- QWidget state of the form -/
  /-- Property `pos()`, which is also `frameGeometry().topLeft()`. -/
  pos : QPoint
  /-- Property `size()`, which is also `geometry().size()`. -/
  size : QSize
  /-- Result of `isFullScreen()`. -/
  fullScreen : Bool
  /- ui->videoWidget -/
  /-- Result of `ui->videoWidget->geometry()`, in the coordinates of the form. -/
  videoGeometry : QRect
  /-- Result of `ui->videoWidget->isHidden()`. -/
  videoHidden : Bool
  /-- Result of `ui->videoWidget->frameSize()`. -/
  videoFrameSize : QSize
  /-- Result of `QApplication::desktop()`: `none` for a null pointer, else the
  desktop's `availableGeometry()`. -/
  desktop : Option QRect
  /-- Result of `m_server->getDeviceSocket()`. -/
  serverDeviceSocket : Option DeviceSocket
  /-- Socket held by `m_decoder`. -/
  decoderDeviceSocket : Option DeviceSocket
  /-- Whether `m_decoder.startDecode()` has been called and not yet followed by
  `stopDecode()`. -/
  decoderStarted : Bool
  /-- Socket held by `m_inputConvert`. -/
  inputDeviceSocket : Option DeviceSocket
  /-- Calls made so far, oldest first. -/
  calls : List Call
deriving DecidableEq, Repr

namespace VideoForm

/-- Append one call to the log. -/
def call (c : Call) (s : VideoForm) : VideoForm :=
  { s with calls := s.calls ++ [c] }

/-! ### Collaborators and Qt widget operations -/

/-- Modelled from the spec: `Decoder::setDeviceSocket` (decoder.cpp is not part
of the sources): the decoder keeps the socket reference it is given. -/
def decoderSetDeviceSocket (socket : Option DeviceSocket) (s : VideoForm) : VideoForm :=
  call (Call.decoderSetDeviceSocket socket) { s with decoderDeviceSocket := socket }

/-- Modelled from the spec: `Decoder::startDecode` (decoder.cpp is not part of
the sources): the decode pipeline is started. -/
def decoderStartDecode (s : VideoForm) : VideoForm :=
  call Call.decoderStartDecode { s with decoderStarted := true }

/-- Modelled from the spec: `Decoder::stopDecode` (decoder.cpp is not part of
the sources): the decode pipeline is stopped. -/
def decoderStopDecode (s : VideoForm) : VideoForm :=
  call Call.decoderStopDecode { s with decoderStarted := false }

/-- Modelled from the spec: `InputConvertGame::setDeviceSocket` (not part of the
sources): the input relay keeps the socket reference it is given. -/
def inputSetDeviceSocket (socket : Option DeviceSocket) (s : VideoForm) : VideoForm :=
  call (Call.inputSetDeviceSocket socket) { s with inputDeviceSocket := socket }

/-- Modelled from the spec: `QYUVOpenGLWidget::setFrameSize` (not part of the
sources): the video widget records the frame size. -/
def videoWidgetSetFrameSize (frameSize : QSize) (s : VideoForm) : VideoForm :=
  call (Call.videoWidgetSetFrameSize frameSize) { s with videoFrameSize := frameSize }

/-- Qt: `ui->videoWidget->show()`. -/
def videoWidgetShow (s : VideoForm) : VideoForm :=
  call Call.videoWidgetShow { s with videoHidden := false }

/-- Qt: `ui->videoWidget->hide()`. -/
def videoWidgetHide (s : VideoForm) : VideoForm :=
  call Call.videoWidgetHide { s with videoHidden := true }

/-- Qt: `QWidget::resize` of the form. -/
def resize (size : QSize) (s : VideoForm) : VideoForm :=
  call (Call.resize size) { s with size := size }

/-- Qt: `QWidget::move` of the form. -/
def move (pos : QPoint) (s : VideoForm) : VideoForm :=
  call (Call.move pos) { s with pos := pos }

/-- Qt: `QWidget::showNormal` of the form. -/
def showNormal (s : VideoForm) : VideoForm :=
  call Call.showNormal { s with fullScreen := false }

/-- Qt: `QWidget::showFullScreen` of the form. -/
def showFullScreen (s : VideoForm) : VideoForm :=
  call Call.showFullScreen { s with fullScreen := true }

/-- Qt: `ui->videoWidget->mapFrom(this, p)`; the video widget is a child of the
form, so the point is shifted by the widget's position in the form. -/
def videoWidgetMapFrom (s : VideoForm) (p : QPoint) : QPoint :=
  p - s.videoGeometry.topLeft

/-! ### Methods of `VideoForm`

`mulRatio n` stands for the C++ expression `n * m_widthHeightRatio` converted
back to `int`: the product of an `int` with the `float` member
`m_widthHeightRatio` (the aspect ratio of phone.png, set once by `initUI`),
truncated by the implicit conversion in `setWidth` and `setHeight`.  The
floating point product is kept abstract. -/

section Methods

variable (mulRatio : Int → Int)

/-- Method `VideoForm::showToolFrom(bool show)`. -/
def showToolFrom (visible : Bool) (s : VideoForm) : VideoForm :=
  let s :=
    if !s.m_toolForm then
      let s := call Call.toolFormNew { s with m_toolForm := true }
      call (Call.toolFormMove (s.pos.x + s.size.width) (s.pos.y + 30)) s
    else s
  call (Call.toolFormSetVisible visible) s

/-- Method `VideoForm::updateStyleSheet(bool vertical)`. -/
def updateStyleSheet (vertical : Bool) (s : VideoForm) : VideoForm :=
  if vertical then
    call (Call.setContentsMargins 10 68 12 62) (call (Call.setStyleSheet StyleSheet.phoneV) s)
  else
    call (Call.setContentsMargins 68 12 62 10) (call (Call.setStyleSheet StyleSheet.phoneH) s)

/-- Method `VideoForm::switchFullScreen()`. -/
def switchFullScreen (s : VideoForm) : VideoForm :=
  if s.fullScreen then
    let s := showNormal s
    let s := updateStyleSheet (decide (s.size.height > s.size.width)) s
    showToolFrom true s
  else
    let s := showToolFrom false s
    let s := call (Call.setContentsMargins 0 0 0 0) s
    showFullScreen s

/-- The local `showSize` of `VideoForm::updateShowSize` as it stands after
the `if (desktop)` block: the new size, bounded by the desktop's available
geometry on its long side when there is a desktop. -/
def showSizeFor (newSize : QSize) (desktop : Option QRect) : QSize :=
  let vertical : Bool := decide (newSize.height > newSize.width)
  let showSize := newSize
  match desktop with
  | some screenRect =>
    if vertical then
      let showSize := { showSize with height := qMin newSize.height (screenRect.height - 200) }
      { showSize with width := mulRatio showSize.height }
    else
      let showSize := { showSize with width := qMin newSize.width screenRect.width }
      { showSize with height := mulRatio showSize.width }
  | none => showSize

/-- Method `VideoForm::updateShowSize(const QSize &newSize)`. -/
def updateShowSize (newSize : QSize) (s : VideoForm) : VideoForm :=
  if s.frameSize ≠ newSize then
    let s := { s with frameSize := newSize }
    let vertical : Bool := decide (newSize.height > newSize.width)
    let showSize := showSizeFor mulRatio newSize s.desktop
    let s :=
      match s.desktop with
      | some screenRect =>
        let s := if s.fullScreen then switchFullScreen s else s
        move (screenRect.center - (QRect.ofXYWH 0 0 showSize.width showSize.height).center) s
      | none => s
    if showSize ≠ s.size then
      updateStyleSheet vertical (resize showSize s)
    else s
  else s

/-- Method `VideoForm::postKeyCodeClick(AndroidKeycode keycode)`. -/
def postKeyCodeClick (keycode : AndroidKeycode) (s : VideoForm) : VideoForm :=
  match ControlEvent.new ControlEventType.CET_KEYCODE with
  | none => s
  | some controlEventDown =>
    let controlEventDown := controlEventDown.setKeycodeEventData
      AndroidKeyeventAction.AKEY_EVENT_ACTION_DOWN keycode AMETA_NONE
    let s := call (Call.inputSendControlEvent controlEventDown) s
    match ControlEvent.new ControlEventType.CET_KEYCODE with
    | none => s
    | some controlEventUp =>
      let controlEventUp := controlEventUp.setKeycodeEventData
        AndroidKeyeventAction.AKEY_EVENT_ACTION_UP keycode AMETA_NONE
      call (Call.inputSendControlEvent controlEventUp) s

/-- Method `VideoForm::postGoMenu()`. -/
def postGoMenu (s : VideoForm) : VideoForm := postKeyCodeClick AKEYCODE_MENU s

/-- Method `VideoForm::postGoBack()`. -/
def postGoBack (s : VideoForm) : VideoForm := postKeyCodeClick AKEYCODE_BACK s

/-- Method `VideoForm::postAppSwitch()`. -/
def postAppSwitch (s : VideoForm) : VideoForm := postKeyCodeClick AKEYCODE_APP_SWITCH s

/-- Method `VideoForm::postPower()`. -/
def postPower (s : VideoForm) : VideoForm := postKeyCodeClick AKEYCODE_POWER s

/-- Method `VideoForm::postVolumeUp()`. -/
def postVolumeUp (s : VideoForm) : VideoForm := postKeyCodeClick AKEYCODE_VOLUME_UP s

/-- Method `VideoForm::postVolumeDown()`. -/
def postVolumeDown (s : VideoForm) : VideoForm := postKeyCodeClick AKEYCODE_VOLUME_DOWN s

/-- Method `VideoForm::postGoHome()`. -/
def postGoHome (s : VideoForm) : VideoForm := postKeyCodeClick AKEYCODE_HOME s

/-- Method `VideoForm::postTurnOn()`. -/
def postTurnOn (s : VideoForm) : VideoForm :=
  match ControlEvent.new ControlEventType.CET_COMMAND with
  | none => s
  | some controlEvent =>
    let controlEvent := controlEvent.setCommandEventData
      ControlEventCommand.CONTROL_EVENT_COMMAND_BACK_OR_SCREEN_ON
    call (Call.inputSendControlEvent controlEvent) s

/-- Method `VideoForm::mousePressEvent(QMouseEvent *event)`; the event is
returned as the method leaves it. -/
def mousePressEvent (event : QMouseEvent) (s : VideoForm) : VideoForm × QMouseEvent :=
  if s.videoGeometry.contains event.pos then
    let event := { event with localPos := s.videoWidgetMapFrom event.localPos }
    (call (Call.inputMouseEvent event s.videoFrameSize s.videoGeometry.size) s, event)
  else
    if event.button = Qt.LeftButton then
      ({ s with m_dragPosition := event.globalPos - s.pos }, { event with accepted := true })
    else (s, event)

/-- Method `VideoForm::mouseReleaseEvent(QMouseEvent *event)`. -/
def mouseReleaseEvent (event : QMouseEvent) (s : VideoForm) : VideoForm × QMouseEvent :=
  if s.videoGeometry.contains event.pos then
    let event := { event with localPos := s.videoWidgetMapFrom event.localPos }
    (call (Call.inputMouseEvent event s.videoFrameSize s.videoGeometry.size) s, event)
  else (s, event)

/-- Method `VideoForm::mouseMoveEvent(QMouseEvent *event)`. -/
def mouseMoveEvent (event : QMouseEvent) (s : VideoForm) : VideoForm × QMouseEvent :=
  if s.videoGeometry.contains event.pos then
    let event := { event with localPos := s.videoWidgetMapFrom event.localPos }
    (call (Call.inputMouseEvent event s.videoFrameSize s.videoGeometry.size) s, event)
  else
    if event.buttons &&& Qt.LeftButton ≠ 0 then
      (move (event.globalPos - s.m_dragPosition) s, { event with accepted := true })
    else (s, event)

/-- Method `VideoForm::wheelEvent(QWheelEvent *event)`. -/
def wheelEvent (event : QWheelEvent) (s : VideoForm) : VideoForm :=
  if s.videoGeometry.contains event.pos then
    let pos := s.videoWidgetMapFrom event.pos
    let wheelEvent : QWheelEvent :=
      ⟨pos, event.globalPosF, event.delta, event.buttons, event.modifiers, event.orientation⟩
    call (Call.inputWheelEvent wheelEvent s.videoFrameSize s.videoGeometry.size) s
  else s

/-- Method `VideoForm::keyPressEvent(QKeyEvent *event)`. -/
def keyPressEvent (event : QKeyEvent) (s : VideoForm) : VideoForm :=
  let s :=
    if Qt.Key_Escape = event.key ∧ event.isAutoRepeat = false ∧ s.fullScreen = true then
      switchFullScreen s
    else s
  call (Call.inputKeyEvent event s.videoFrameSize s.videoGeometry.size) s

/-- Method `VideoForm::keyReleaseEvent(QKeyEvent *event)`. -/
def keyReleaseEvent (event : QKeyEvent) (s : VideoForm) : VideoForm :=
  call (Call.inputKeyEvent event s.videoFrameSize s.videoGeometry.size) s

/-- Method `VideoForm::paintEvent(QPaintEvent *)`. -/
def paintEvent (s : VideoForm) : VideoForm := call Call.drawPrimitive s

/-- Method `VideoForm::showEvent(QShowEvent *)`, which calls `showToolFrom()`
with its default argument; the default is declared in videoform.h, which is
not part of the sources, and is taken as `defaultShow`. -/
def showEvent (defaultShow : Bool) (s : VideoForm) : VideoForm := showToolFrom defaultShow s

/-! ### Signal handlers connected in the constructor -/

/-- Handler of `Server::serverStartResult(bool success)`. -/
def serverStartResult (success : Bool) (s : VideoForm) : VideoForm :=
  if success then call Call.serverConnectTo s else s

/-- Handler of `Server::connectToResult(bool success, const QString &deviceName,
const QSize &size)`. -/
def connectToResult (success : Bool) (deviceName : String) (size : QSize) (s : VideoForm) :
    VideoForm :=
  if success then
    let s := call (Call.setWindowTitle deviceName) s
    let s := updateShowSize mulRatio size s
    let s := decoderSetDeviceSocket s.serverDeviceSocket s
    let s := decoderStartDecode s
    inputSetDeviceSocket s.serverDeviceSocket s
  else s

/-- Handler of `Server::onServerStop()`. -/
def onServerStop (s : VideoForm) : VideoForm := call Call.close s

/-- Handler of `Decoder::onDecodeStop()`. -/
def onDecodeStop (s : VideoForm) : VideoForm := call Call.close s

/-- Handler of `Decoder::onNewFrame()`; `frame` is the frame that
`m_frames.consumeRenderedFrame()` hands out. -/
def onNewFrame (frame : AVFrame) (s : VideoForm) : VideoForm :=
  let s := if s.videoHidden then videoWidgetShow (call Call.loadingWidgetClose s) else s
  let s := call Call.framesLock s
  let s := call Call.framesConsumeRenderedFrame s
  let s := updateShowSize mulRatio ⟨frame.width, frame.height⟩ s
  let s := videoWidgetSetFrameSize ⟨frame.width, frame.height⟩ s
  let s := call (Call.videoWidgetUpdateTextures frame.data0 frame.data1 frame.data2
    frame.linesize0 frame.linesize1 frame.linesize2) s
  call Call.framesUnLock s

/-- The zero delay `QTimer::singleShot` armed by the constructor. -/
def singleShot (s : VideoForm) : VideoForm :=
  call (Call.serverStart s.m_serial 27183 s.m_maxSize s.m_bitRate "") s

/-! ### Construction and destruction -/

/-- What `ui->setupUi(this)` and the platform provide when the form is
created: the geometry laid out by the ui file (not part of the sources), the
desktop, and the video widget's initial frame size. -/
structure UiSetup where
  pos : QPoint
  size : QSize
  videoGeometry : QRect
  videoFrameSize : QSize
  desktop : Option QRect
deriving DecidableEq, Repr

/-- Method `VideoForm::initUI()`: besides loading `m_widthHeightRatio` and
setting window flags and widget attributes, which nothing here reads, it
hides the video widget. -/
def initUI (s : VideoForm) : VideoForm := videoWidgetHide s

/-- Constructor `VideoForm::VideoForm(serial, maxSize, bitRate, parent)`. -/
def construct (serial : String) (maxSize bitRate : Nat) (ui : UiSetup) : VideoForm :=
  let s : VideoForm :=
    { m_serial := serial, m_maxSize := maxSize, m_bitRate := bitRate,
      frameSize := QSize.invalid, m_dragPosition := ⟨0, 0⟩, m_toolForm := false,
      pos := ui.pos, size := ui.size, fullScreen := false,
      videoGeometry := ui.videoGeometry, videoHidden := false,
      videoFrameSize := ui.videoFrameSize, desktop := ui.desktop,
      serverDeviceSocket := none, decoderDeviceSocket := none, decoderStarted := false,
      inputDeviceSocket := none, calls := [] }
  let s := initUI s
  let s := call Call.framesInit s
  let s := call Call.decoderSetFrames s
  let s := updateShowSize mulRatio s.size s
  let vertical : Bool := decide (s.size.height > s.size.width)
  updateStyleSheet vertical s

/-- Destructor `VideoForm::~VideoForm()`. -/
def destructor (s : VideoForm) : VideoForm :=
  let s := call Call.serverStop s
  let s := decoderStopDecode s
  let s := call Call.serverDelete s
  let s := call Call.framesDeInit s
  call Call.uiDelete s

/-! ### Delivery of notifications -/

/-- State owned by the surroundings of the form and only read by it: the
window geometry (window system, layout), the desktop, and the socket the
server currently holds. -/
structure Surroundings where
  pos : QPoint
  size : QSize
  fullScreen : Bool
  videoGeometry : QRect
  desktop : Option QRect
  serverDeviceSocket : Option DeviceSocket
deriving DecidableEq, Repr

/-- Everything that can reach a live form: the queued and direct signals it
is connected to, the Qt events it overrides, its public methods, and a change
of its surroundings. -/
inductive Notification
  | serverStartResult (success : Bool)
  | connectToResult (success : Bool) (deviceName : String) (size : QSize)
  | onServerStop
  | onDecodeStop
  | onNewFrame (frame : AVFrame)
  | singleShot
  | mousePressEvent (event : QMouseEvent)
  | mouseReleaseEvent (event : QMouseEvent)
  | mouseMoveEvent (event : QMouseEvent)
  | wheelEvent (event : QWheelEvent)
  | keyPressEvent (event : QKeyEvent)
  | keyReleaseEvent (event : QKeyEvent)
  | paintEvent
  | showEvent (defaultShow : Bool)
  | switchFullScreen
  | postGoMenu
  | postGoBack
  | postAppSwitch
  | postPower
  | postVolumeUp
  | postVolumeDown
  | postTurnOn
  | postGoHome
  | surroundings (e : Surroundings)
deriving DecidableEq, Repr

/-- Run the handler of one notification. -/
def handle (n : Notification) (s : VideoForm) : VideoForm :=
  match n with
  | Notification.serverStartResult success => serverStartResult success s
  | Notification.connectToResult success deviceName size =>
    connectToResult mulRatio success deviceName size s
  | Notification.onServerStop => onServerStop s
  | Notification.onDecodeStop => onDecodeStop s
  | Notification.onNewFrame frame => onNewFrame mulRatio frame s
  | Notification.singleShot => singleShot s
  | Notification.mousePressEvent event => (mousePressEvent event s).1
  | Notification.mouseReleaseEvent event => (mouseReleaseEvent event s).1
  | Notification.mouseMoveEvent event => (mouseMoveEvent event s).1
  | Notification.wheelEvent event => wheelEvent event s
  | Notification.keyPressEvent event => keyPressEvent event s
  | Notification.keyReleaseEvent event => keyReleaseEvent event s
  | Notification.paintEvent => paintEvent s
  | Notification.showEvent defaultShow => showEvent defaultShow s
  | Notification.switchFullScreen => switchFullScreen s
  | Notification.postGoMenu => postGoMenu s
  | Notification.postGoBack => postGoBack s
  | Notification.postAppSwitch => postAppSwitch s
  | Notification.postPower => postPower s
  | Notification.postVolumeUp => postVolumeUp s
  | Notification.postVolumeDown => postVolumeDown s
  | Notification.postTurnOn => postTurnOn s
  | Notification.postGoHome => postGoHome s
  | Notification.surroundings e =>
    { s with pos := e.pos, size := e.size, fullScreen := e.fullScreen,
             videoGeometry := e.videoGeometry, desktop := e.desktop,
             serverDeviceSocket := e.serverDeviceSocket }

/-- Deliver a sequence of notifications, first to last. -/
def deliver (ns : List Notification) (s : VideoForm) : VideoForm :=
  ns.foldl (fun s n => handle mulRatio n s) s

/-- Number of `close()` calls in a call log. -/
def closeCalls (calls : List Call) : Nat := calls.count Call.close

/-- Number of `m_server->connectTo()` calls in a call log. -/
def connectToCalls (calls : List Call) : Nat := calls.count Call.serverConnectTo

/-- Number of events handed to `m_inputConvert.mouseEvent` in a call log. -/
def mouseEventCalls (calls : List Call) : Nat :=
  calls.countP fun c => match c with
    | Call.inputMouseEvent _ _ _ => true
    | _ => false

/-- Whether a notification is one of the two terminal notifications. -/
def Notification.isTerminal : Notification → Bool
  | Notification.onServerStop => true
  | Notification.onDecodeStop => true
  | _ => false

/-! ### The reader's hold on the frame store, read off a call log -/

/-- Effect of one call on the number of holds the reader has on the frame
store, or `none` when the call breaks the locking discipline: `lock` takes a
hold, `unLock` gives one back and needs one, handing out the rendered frame
and passing its planes to the video widget need a hold, and `deInit` must
find the store free. -/
def readerStep (held : Nat) : Call → Option Nat
  | Call.framesLock => some (held + 1)
  | Call.framesUnLock => if held = 0 then none else some (held - 1)
  | Call.framesConsumeRenderedFrame => if held = 0 then none else some held
  | Call.videoWidgetUpdateTextures _ _ _ _ _ _ => if held = 0 then none else some held
  | Call.framesDeInit => if held = 0 then some 0 else none
  | _ => some held

/-- Number of holds the reader has after a whole call log, starting from
`held`; `none` when some call broke the discipline. -/
def readerHolds (held : Nat) : List Call → Option Nat
  | [] => some held
  | c :: cs => (readerStep held c).bind fun h => readerHolds h cs

/-- Calls that only concern the window, its style and the tool form: the calls
`updateShowSize`, `switchFullScreen`, `updateStyleSheet` and `showToolFrom`
can make. -/
def isWindowCall : Call → Bool
  | Call.toolFormNew => true
  | Call.toolFormMove _ _ => true
  | Call.toolFormSetVisible _ => true
  | Call.resize _ => true
  | Call.move _ => true
  | Call.showNormal => true
  | Call.showFullScreen => true
  | Call.setStyleSheet _ => true
  | Call.setContentsMargins _ _ _ _ => true
  | _ => false

/-- A call log without its window calls. -/
def strip (calls : List Call) : List Call := calls.filter fun c => !isWindowCall c

/-- The session fields, which the window methods never touch, agree in the
two states. -/
def SameSession (s s' : VideoForm) : Prop :=
  s'.m_serial = s.m_serial ∧ s'.m_maxSize = s.m_maxSize ∧ s'.m_bitRate = s.m_bitRate
  ∧ s'.m_dragPosition = s.m_dragPosition ∧ s'.videoGeometry = s.videoGeometry
  ∧ s'.videoHidden = s.videoHidden ∧ s'.videoFrameSize = s.videoFrameSize
  ∧ s'.desktop = s.desktop ∧ s'.serverDeviceSocket = s.serverDeviceSocket
  ∧ s'.decoderDeviceSocket = s.decoderDeviceSocket ∧ s'.decoderStarted = s.decoderStarted
  ∧ s'.inputDeviceSocket = s.inputDeviceSocket

/-- The calls made between two states of the form: what the later call log
holds beyond the earlier one. -/
def added (before after : VideoForm) : List Call := after.calls.drop before.calls.length

/-- State of the new-frame handler at the point where it calls
`updateShowSize`: video widget shown, frame store locked, rendered frame
handed out. -/
def frameLocked (s : VideoForm) : VideoForm :=
  call Call.framesConsumeRenderedFrame (call Call.framesLock
    (if s.videoHidden then videoWidgetShow (call Call.loadingWidgetClose s) else s))

/-! ### Concrete forms used to evaluate the handlers -/

/-- A ratio of one half, `n * 0.5f` truncated. -/
def halve (n : Int) : Int := Int.tdiv n 2

/-- A freshly laid out form on a 1920x1080 desktop: window 420x850 at
(100, 50), video widget 300x600 at the window origin. -/
def demoUi : UiSetup :=
  { pos := ⟨100, 50⟩, size := ⟨420, 850⟩, videoGeometry := QRect.ofXYWH 0 0 300 600,
    videoFrameSize := QSize.invalid, desktop := some (QRect.ofXYWH 0 0 1920 1080) }

/-- The form constructed for the only attached device (empty serial), maximum
size 720, bit rate 8000000. -/
def demoForm : VideoForm := construct halve "" 720 8000000 demoUi

/-- The demo form while streaming a 1080x2340 device: the server holds socket
7 and has reported the device size. -/
def demoStreaming : VideoForm :=
  deliver halve
    [Notification.surroundings
       { pos := ⟨747, 115⟩, size := ⟨425, 850⟩, fullScreen := false,
         videoGeometry := QRect.ofXYWH 0 0 300 600,
         desktop := some (QRect.ofXYWH 0 0 1920 1080), serverDeviceSocket := some 7 },
     Notification.connectToResult true "Pixel" ⟨1080, 2340⟩]
    demoForm

/-- A left button press at local point `p` of the demo window. -/
def demoPress (p : QPoint) : QMouseEvent :=
  { type := MouseEventType.MouseButtonPress, localPos := p,
    globalPos := ⟨740 + p.x, 100 + p.y⟩, button := Qt.LeftButton, buttons := Qt.LeftButton,
    modifiers := 0, accepted := true }

/-- A mouse move with the left button held, at local point `p` of the demo
window. -/
def demoDrag (p : QPoint) : QMouseEvent :=
  { type := MouseEventType.MouseMove, localPos := p,
    globalPos := ⟨740 + p.x, 100 + p.y⟩, button := 0, buttons := Qt.LeftButton,
    modifiers := 0, accepted := true }

/-- A decoded 1080x2340 picture. -/
def demoFrame : AVFrame :=
  { width := 1080, height := 2340, data0 := 4096, data1 := 8192, data2 := 12288,
    linesize0 := 1088, linesize1 := 544, linesize2 := 544 }

/-- The streaming demo form after its first decoded picture: video widget
300x600 showing a 1080x2340 device frame. -/
def demoShowing : VideoForm := onNewFrame halve demoFrame demoStreaming

end Methods

end VideoForm

/-! ## Properties -/

namespace VideoForm

/-! ### The window methods leave the session alone -/

theorem strip_append (a b : List Call) : strip (a ++ b) = strip a ++ strip b := by
  simp [strip]

theorem strip_single (c : Call) : strip [c] = if isWindowCall c then [] else [c] := by
  cases h : isWindowCall c <;> simp [strip, h]

theorem updateStyleSheet_window (vertical : Bool) (s : VideoForm) :
    SameSession s (updateStyleSheet vertical s)
    ∧ strip (updateStyleSheet vertical s).calls = strip s.calls := by
  cases vertical <;> simp [SameSession, updateStyleSheet, call, strip, isWindowCall]

theorem showToolFrom_window (visible : Bool) (s : VideoForm) :
    SameSession s (showToolFrom visible s)
    ∧ strip (showToolFrom visible s).calls = strip s.calls := by
  unfold showToolFrom
  split <;> simp [SameSession, call, strip, isWindowCall]

theorem switchFullScreen_window (s : VideoForm) :
    SameSession s (switchFullScreen s)
    ∧ strip (switchFullScreen s).calls = strip s.calls := by
  unfold switchFullScreen
  split <;>
    simp [SameSession, updateStyleSheet, showToolFrom, showNormal, showFullScreen, call, strip,
      isWindowCall] <;>
    split_ifs <;> simp [isWindowCall]

theorem updateShowSize_window (mulRatio : Int → Int) (newSize : QSize) (s : VideoForm) :
    SameSession s (updateShowSize mulRatio newSize s)
    ∧ strip (updateShowSize mulRatio newSize s).calls = strip s.calls := by
  unfold updateShowSize
  cases hd : s.desktop <;>
    simp [SameSession, switchFullScreen, updateStyleSheet, showToolFrom, showNormal,
      showFullScreen, move, resize, call, strip, isWindowCall, hd] <;>
    split_ifs <;> simp [isWindowCall, hd]

theorem strip_updateShowSize (mulRatio : Int → Int) (newSize : QSize) (s : VideoForm) :
    strip (updateShowSize mulRatio newSize s).calls = strip s.calls :=
  (updateShowSize_window mulRatio newSize s).2

theorem strip_switchFullScreen (s : VideoForm) :
    strip (switchFullScreen s).calls = strip s.calls :=
  (switchFullScreen_window s).2

theorem strip_showToolFrom (visible : Bool) (s : VideoForm) :
    strip (showToolFrom visible s).calls = strip s.calls :=
  (showToolFrom_window visible s).2

/-- After `updateShowSize newSize` the recorded frame size is `newSize`,
whether or not it was before. -/
theorem updateShowSize_frameSize (mulRatio : Int → Int) (newSize : QSize) (s : VideoForm) :
    (updateShowSize mulRatio newSize s).frameSize = newSize := by
  unfold updateShowSize
  by_cases h : s.frameSize = newSize
  · simp [h]
  · cases hd : s.desktop <;>
      simp [h, switchFullScreen, updateStyleSheet, showToolFrom, showNormal,
        showFullScreen, move, resize, call, hd] <;>
      split_ifs <;> simp

/-- A call of `updateShowSize` with the size already recorded does nothing. -/
theorem updateShowSize_same (mulRatio : Int → Int) (newSize : QSize) (s : VideoForm)
    (h : s.frameSize = newSize) : updateShowSize mulRatio newSize s = s := by
  simp [updateShowSize, h]

/-- When the recorded size differs, the window ends up with the computed show
size. -/
theorem updateShowSize_size (mulRatio : Int → Int) (newSize : QSize) (s : VideoForm)
    (h : s.frameSize ≠ newSize) :
    (updateShowSize mulRatio newSize s).size = showSizeFor mulRatio newSize s.desktop := by
  unfold updateShowSize
  cases hd : s.desktop <;>
    simp [h, switchFullScreen, updateStyleSheet, showToolFrom, showNormal,
      showFullScreen, move, resize, call, hd] <;>
    split_ifs <;> simp_all

theorem qMin_eq_min (a b : Int) : qMin a b = min a b := by
  unfold qMin
  split_ifs with h
  · exact (min_eq_left (le_of_lt h)).symm
  · exact (min_eq_right (not_lt.mp h)).symm

/-! ### Reading a call log through `strip` -/

theorem strip_nil : strip [] = [] := rfl

theorem strip_cons (c : Call) (l : List Call) :
    strip (c :: l) = if isWindowCall c then strip l else c :: strip l := by
  cases h : isWindowCall c <;> simp [strip, h]

theorem closeCalls_strip (l : List Call) : closeCalls (strip l) = closeCalls l := by
  unfold closeCalls strip
  exact List.count_filter (by decide)

theorem closeCalls_append (a b : List Call) :
    closeCalls (a ++ b) = closeCalls a + closeCalls b := by
  simp [closeCalls]

theorem readerStep_window (held : Nat) (c : Call) (h : isWindowCall c = true) :
    readerStep held c = some held := by
  cases c <;> simp_all [isWindowCall, readerStep]

theorem readerHolds_append (held : Nat) (a b : List Call) :
    readerHolds held (a ++ b) = (readerHolds held a).bind fun h => readerHolds h b := by
  induction a generalizing held with
  | nil => simp [readerHolds]
  | cons c cs ih =>
    simp only [List.cons_append, readerHolds]
    cases readerStep held c with
    | none => simp
    | some k => simpa using ih k

theorem readerHolds_strip (held : Nat) (l : List Call) :
    readerHolds held (strip l) = readerHolds held l := by
  induction l generalizing held with
  | nil => rfl
  | cons c cs ih =>
    rw [strip_cons]
    cases hc : isWindowCall c with
    | true => simp [readerHolds, readerStep_window held c hc, ih]
    | false =>
      simp only [Bool.false_eq_true, if_false, readerHolds]
      cases readerStep held c with
      | none => simp
      | some k => simpa using ih k

/-- Handling a notification adds one `close()` call when the notification is
terminal and none otherwise. -/
theorem closeCalls_handle (mulRatio : Int → Int) (n : Notification) (s : VideoForm) :
    closeCalls (handle mulRatio n s).calls
      = closeCalls s.calls + (if n.isTerminal then 1 else 0) := by
  rw [← closeCalls_strip, ← closeCalls_strip s.calls]
  cases n <;>
    simp only [handle, serverStartResult, connectToResult, onServerStop, onDecodeStop,
      onNewFrame, singleShot, mousePressEvent, mouseReleaseEvent, mouseMoveEvent, wheelEvent,
      keyPressEvent, keyReleaseEvent, paintEvent, showEvent, postGoMenu, postGoBack,
      postAppSwitch, postPower, postVolumeUp, postVolumeDown, postTurnOn, postGoHome,
      postKeyCodeClick, ControlEvent.new] <;>
    (try split_ifs) <;>
    simp_all [decoderSetDeviceSocket, decoderStartDecode,
      inputSetDeviceSocket, videoWidgetSetFrameSize, videoWidgetShow, move, call,
      strip_append, strip_cons, strip_nil, strip_updateShowSize, strip_switchFullScreen,
      strip_showToolFrom, isWindowCall, closeCalls_append, Notification.isTerminal, closeCalls]

/-- The calls of the new-frame handler that are not window calls. -/
theorem strip_onNewFrame (mulRatio : Int → Int) (frame : AVFrame) (s : VideoForm) :
    strip (onNewFrame mulRatio frame s).calls
      = strip s.calls
        ++ (if s.videoHidden then [Call.loadingWidgetClose, Call.videoWidgetShow] else [])
        ++ [Call.framesLock, Call.framesConsumeRenderedFrame,
            Call.videoWidgetSetFrameSize ⟨frame.width, frame.height⟩,
            Call.videoWidgetUpdateTextures frame.data0 frame.data1 frame.data2
              frame.linesize0 frame.linesize1 frame.linesize2,
            Call.framesUnLock] := by
  simp only [onNewFrame]
  split_ifs <;>
    simp_all [videoWidgetSetFrameSize, videoWidgetShow, call, strip_append, strip_cons,
      strip_nil, strip_updateShowSize, isWindowCall]

/-- Handling a notification leaves the reader's hold count where it was. -/
theorem readerHolds_handle (mulRatio : Int → Int) (held : Nat) (n : Notification)
    (s : VideoForm) :
    readerHolds held (handle mulRatio n s).calls = readerHolds held s.calls := by
  rw [← readerHolds_strip, ← readerHolds_strip held s.calls]
  cases n
  case onNewFrame frame =>
    simp only [handle, strip_onNewFrame, readerHolds_append]
    cases readerHolds held (strip s.calls) with
    | none => simp
    | some k => cases s.videoHidden <;> simp [readerHolds, readerStep]
  all_goals
    simp only [handle, serverStartResult, connectToResult, onServerStop, onDecodeStop,
      singleShot, mousePressEvent, mouseReleaseEvent, mouseMoveEvent, wheelEvent,
      keyPressEvent, keyReleaseEvent, paintEvent, showEvent, postGoMenu, postGoBack,
      postAppSwitch, postPower, postVolumeUp, postVolumeDown, postTurnOn, postGoHome,
      postKeyCodeClick, ControlEvent.new] <;>
    (try split_ifs) <;>
    simp_all [decoderSetDeviceSocket, decoderStartDecode,
      inputSetDeviceSocket, move, call,
      strip_append, strip_cons, strip_nil, strip_updateShowSize, strip_switchFullScreen,
      strip_showToolFrom, isWindowCall, readerHolds_append] <;>
    (cases readerHolds held (strip s.calls) <;> simp [readerHolds, readerStep])

theorem readerHolds_deliver (mulRatio : Int → Int) (held : Nat) (ns : List Notification)
    (s : VideoForm) :
    readerHolds held (deliver mulRatio ns s).calls = readerHolds held s.calls := by
  induction ns generalizing s with
  | nil => rfl
  | cons n ns ih =>
    simp only [deliver, List.foldl_cons] at ih ⊢
    rw [ih, readerHolds_handle]

theorem readerHolds_construct (mulRatio : Int → Int) (serial : String) (maxSize bitRate : Nat)
    (ui : UiSetup) :
    readerHolds 0 (construct mulRatio serial maxSize bitRate ui).calls = some 0 := by
  rw [← readerHolds_strip]
  simp [construct, initUI, videoWidgetHide, call, (updateStyleSheet_window _ _).2,
    strip_updateShowSize, strip_append, strip_cons, strip_nil, isWindowCall, readerHolds,
    readerStep]

/-! ### The calls `updateShowSize` adds -/

/-- The call log after `updateShowSize` is the log before, followed by the calls
it added. -/
theorem updateShowSize_calls (mulRatio : Int → Int) (newSize : QSize) (s : VideoForm) :
    (updateShowSize mulRatio newSize s).calls
      = s.calls ++ added s (updateShowSize mulRatio newSize s) := by
  unfold added updateShowSize
  cases hd : s.desktop <;>
    simp [switchFullScreen, updateStyleSheet, showToolFrom, showNormal,
      showFullScreen, move, resize, call, hd] <;>
    split_ifs <;> simp

/-- Every call `updateShowSize` adds is a window call. -/
theorem updateShowSize_added_window (mulRatio : Int → Int) (newSize : QSize) (s : VideoForm) :
    ∀ c ∈ added s (updateShowSize mulRatio newSize s), isWindowCall c = true := by
  have h := strip_updateShowSize mulRatio newSize s
  rw [updateShowSize_calls, strip_append] at h
  have h0 : strip (added s (updateShowSize mulRatio newSize s)) = [] := by
    simpa using h
  intro c hc
  have := (List.filter_eq_nil_iff.mp h0) c hc
  simpa using this

/-- With the size already recorded, `updateShowSize` adds no call. -/
theorem updateShowSize_added_same (mulRatio : Int → Int) (newSize : QSize) (s : VideoForm)
    (h : s.frameSize = newSize) : added s (updateShowSize mulRatio newSize s) = [] := by
  rw [updateShowSize_same mulRatio newSize s h]
  simp [added]

/-- With a differing size and a desktop, `updateShowSize` centres the window for
the computed show size. -/
theorem updateShowSize_added_move (mulRatio : Int → Int) (newSize : QSize) (s : VideoForm)
    (screenRect : QRect) (hd : s.desktop = some screenRect) (h : s.frameSize ≠ newSize) :
    Call.move (screenRect.center - (QRect.ofXYWH 0 0
        (showSizeFor mulRatio newSize s.desktop).width
        (showSizeFor mulRatio newSize s.desktop).height).center)
      ∈ added s (updateShowSize mulRatio newSize s) := by
  unfold added updateShowSize
  simp [h, switchFullScreen, updateStyleSheet, showToolFrom, showNormal,
      showFullScreen, move, resize, call, hd]
  split_ifs <;> simp

/-! ### Key clicks -/

/-- C1: for every keycode `k`, `postKeyCodeClick k` hands exactly two control
events to the input relay and changes nothing else: first the keycode event
(DOWN, `k`, no modifiers), then the keycode event (UP, `k`, no modifiers);
`postGoHome` does so with the HOME keycode. -/
theorem postKeyCodeClick_down_then_up (k : AndroidKeycode) (s : VideoForm) :
    postKeyCodeClick k s =
        { s with calls := s.calls ++
          [Call.inputSendControlEvent ⟨ControlEventType.CET_KEYCODE,
             ControlEventData.keycode AndroidKeyeventAction.AKEY_EVENT_ACTION_DOWN k AMETA_NONE⟩,
           Call.inputSendControlEvent ⟨ControlEventType.CET_KEYCODE,
             ControlEventData.keycode AndroidKeyeventAction.AKEY_EVENT_ACTION_UP k AMETA_NONE⟩] }
    ∧ (postGoHome s).calls = s.calls ++
          [Call.inputSendControlEvent ⟨ControlEventType.CET_KEYCODE,
             ControlEventData.keycode AndroidKeyeventAction.AKEY_EVENT_ACTION_DOWN
               AKEYCODE_HOME AMETA_NONE⟩,
           Call.inputSendControlEvent ⟨ControlEventType.CET_KEYCODE,
             ControlEventData.keycode AndroidKeyeventAction.AKEY_EVENT_ACTION_UP
               AKEYCODE_HOME AMETA_NONE⟩] := by
  constructor <;>
    simp [postGoHome, postKeyCodeClick, ControlEvent.new, ControlEvent.setKeycodeEventData, call]

/-! ### Start and connect results -/

/-- C6: the start-result handler calls `connectTo()` exactly once when the
result is success and makes no call at all when it is failure. -/
theorem serverStartResult_connectTo (success : Bool) (s : VideoForm) :
    (serverStartResult success s).calls
        = s.calls ++ (if success then [Call.serverConnectTo] else [])
    ∧ connectToCalls (serverStartResult success s).calls
        = connectToCalls s.calls + (if success then 1 else 0) := by
  cases success <;> simp [serverStartResult, call, connectToCalls]

/-- C10: a mouse press inside the video widget's geometry is forwarded exactly
once to the input relay, with its local position translated into the video
widget's coordinates and with the widget's frame size and size, and leaves
the drag position alone; a press outside is never forwarded, and sets the
drag position to (global position - window top-left) exactly when the button
is the left button. -/
theorem mousePressEvent_routing (event : QMouseEvent) (s : VideoForm) :
    (s.videoGeometry.contains event.pos = true →
      (mousePressEvent event s).1.calls = s.calls ++
        [Call.inputMouseEvent
          { event with localPos := event.localPos - s.videoGeometry.topLeft }
          s.videoFrameSize s.videoGeometry.size]
      ∧ (mousePressEvent event s).1.m_dragPosition = s.m_dragPosition)
    ∧ (s.videoGeometry.contains event.pos = false →
      (mousePressEvent event s).1.calls = s.calls
      ∧ (event.button = Qt.LeftButton →
          (mousePressEvent event s).1.m_dragPosition = event.globalPos - s.pos)
      ∧ (event.button ≠ Qt.LeftButton →
          (mousePressEvent event s).1.m_dragPosition = s.m_dragPosition)) := by
  constructor
  · intro h
    simp [mousePressEvent, h, call, videoWidgetMapFrom]
  · intro h
    by_cases hb : event.button = Qt.LeftButton <;> simp [mousePressEvent, h, hb]

/-- Witness for C10 on the demo form: a left press at (10, 10) lies inside the
video widget, one at (310, 10) lies outside. -/
theorem mousePressEvent_routing_witness :
    ((mousePressEvent (demoPress ⟨10, 10⟩) demoShowing).1.calls = demoShowing.calls ++
        [Call.inputMouseEvent
          { demoPress ⟨10, 10⟩ with
            localPos := (demoPress ⟨10, 10⟩).localPos - demoShowing.videoGeometry.topLeft }
          demoShowing.videoFrameSize demoShowing.videoGeometry.size]
      ∧ (mousePressEvent (demoPress ⟨10, 10⟩) demoShowing).1.m_dragPosition
          = demoShowing.m_dragPosition)
    ∧ ((mousePressEvent (demoPress ⟨310, 10⟩) demoShowing).1.calls = demoShowing.calls
      ∧ (mousePressEvent (demoPress ⟨310, 10⟩) demoShowing).1.m_dragPosition
          = (demoPress ⟨310, 10⟩).globalPos - demoShowing.pos) :=
  ⟨(mousePressEvent_routing (demoPress ⟨10, 10⟩) demoShowing).1 (by decide),
   ((mousePressEvent_routing (demoPress ⟨310, 10⟩) demoShowing).2 (by decide)).1,
   ((mousePressEvent_routing (demoPress ⟨310, 10⟩) demoShowing).2 (by decide)).2.1 (by decide)⟩

/-- C4, as stated, fails: with a 300x600 video widget showing a 1080x2340
device frame, a drag (left button held) at local point (310, 10) lies outside
the video widget's geometry and is not delivered to the input relay; the
handler moves the window instead. -/
theorem mouseMoveEvent_outside_dropped_demo :
    demoShowing.videoGeometry.size = ⟨300, 600⟩
    ∧ demoShowing.videoFrameSize = ⟨1080, 2340⟩
    ∧ demoShowing.videoGeometry.contains (demoDrag ⟨310, 10⟩).pos = false
    ∧ mouseEventCalls (mouseMoveEvent (demoDrag ⟨310, 10⟩) demoShowing).1.calls
        = mouseEventCalls demoShowing.calls
    ∧ (mouseMoveEvent (demoDrag ⟨310, 10⟩) demoShowing).1.calls
        = demoShowing.calls ++ [Call.move ⟨1050, 110⟩] := by
  decide

/-- C4, amended: a mouse move outside the video widget's geometry is never
delivered to the input relay: with the left button held it moves the window
to (global position - drag position) and accepts the event, otherwise it
does nothing; a mouse move inside the geometry is delivered exactly once,
with its position translated into the video widget's coordinates. -/
theorem mouseMoveEvent_routing (event : QMouseEvent) (s : VideoForm) :
    (s.videoGeometry.contains event.pos = false →
      mouseEventCalls (mouseMoveEvent event s).1.calls = mouseEventCalls s.calls
      ∧ (event.buttons &&& Qt.LeftButton ≠ 0 →
          mouseMoveEvent event s =
            ({ s with pos := event.globalPos - s.m_dragPosition,
                      calls := s.calls ++ [Call.move (event.globalPos - s.m_dragPosition)] },
             { event with accepted := true }))
      ∧ (event.buttons &&& Qt.LeftButton = 0 → mouseMoveEvent event s = (s, event)))
    ∧ (s.videoGeometry.contains event.pos = true →
      (mouseMoveEvent event s).1.calls = s.calls ++
        [Call.inputMouseEvent
          { event with localPos := event.localPos - s.videoGeometry.topLeft }
          s.videoFrameSize s.videoGeometry.size]) := by
  constructor
  · intro h
    by_cases hb : event.buttons &&& Qt.LeftButton = 0 <;>
      simp [mouseMoveEvent, h, hb, move, call, mouseEventCalls]
  · intro h
    simp [mouseMoveEvent, h, call, videoWidgetMapFrom]

/-- Witness for the amended C4 on the demo form: the drag at (310, 10) is
outside and moves the window, the drag at (10, 10) is inside and is
delivered. -/
theorem mouseMoveEvent_routing_witness :
    (mouseEventCalls (mouseMoveEvent (demoDrag ⟨310, 10⟩) demoShowing).1.calls
        = mouseEventCalls demoShowing.calls
      ∧ mouseMoveEvent (demoDrag ⟨310, 10⟩) demoShowing =
          ({ demoShowing with
              pos := (demoDrag ⟨310, 10⟩).globalPos - demoShowing.m_dragPosition,
              calls := demoShowing.calls ++
                [Call.move ((demoDrag ⟨310, 10⟩).globalPos - demoShowing.m_dragPosition)] },
           { demoDrag ⟨310, 10⟩ with accepted := true }))
    ∧ (mouseMoveEvent (demoDrag ⟨10, 10⟩) demoShowing).1.calls = demoShowing.calls ++
        [Call.inputMouseEvent
          { demoDrag ⟨10, 10⟩ with
            localPos := (demoDrag ⟨10, 10⟩).localPos - demoShowing.videoGeometry.topLeft }
          demoShowing.videoFrameSize demoShowing.videoGeometry.size] :=
  ⟨⟨((mouseMoveEvent_routing (demoDrag ⟨310, 10⟩) demoShowing).1 (by decide)).1,
    ((mouseMoveEvent_routing (demoDrag ⟨310, 10⟩) demoShowing).1 (by decide)).2.1 (by decide)⟩,
   (mouseMoveEvent_routing (demoDrag ⟨10, 10⟩) demoShowing).2 (by decide)⟩

/-! ### The window size -/

/-- C9: `updateShowSize` bounds the window by the screen.  When the new size
(w, h) differs from the recorded frame size and the desktop's available
geometry is W x H, the recorded frame size becomes (w, h), and the computed
show size, which is the size the window ends up with, has height
min(h, H - 200) when h > w and width min(w, W) otherwise.  When the new size
equals the recorded frame size, `updateShowSize` changes nothing: the state,
call log included, is the same. -/
theorem updateShowSize_bounds_window (mulRatio : Int → Int) (newSize : QSize) (s : VideoForm) :
    (∀ screenRect : QRect, s.desktop = some screenRect → s.frameSize ≠ newSize →
      (updateShowSize mulRatio newSize s).frameSize = newSize
      ∧ (updateShowSize mulRatio newSize s).size = showSizeFor mulRatio newSize s.desktop
      ∧ (newSize.height > newSize.width →
          (showSizeFor mulRatio newSize s.desktop).height
            = min newSize.height (screenRect.height - 200))
      ∧ (¬ newSize.height > newSize.width →
          (showSizeFor mulRatio newSize s.desktop).width
            = min newSize.width screenRect.width))
    ∧ (s.frameSize = newSize → updateShowSize mulRatio newSize s = s) := by
  refine ⟨?_, updateShowSize_same mulRatio newSize s⟩
  intro screenRect hd hne
  refine ⟨updateShowSize_frameSize mulRatio newSize s, updateShowSize_size mulRatio newSize s hne,
    ?_, ?_⟩
  · intro hv
    simp [showSizeFor, hd, hv, qMin_eq_min]
  · intro hv
    simp [showSizeFor, hd, hv, qMin_eq_min]

/-- Witness for C9: on the demo form (desktop 1920x1080, recorded size
420x850) the vertical size 1080x2340 is bounded to height 880, the horizontal
size 2340x1080 to width 1920, and the recorded size 420x850 changes nothing. -/
theorem updateShowSize_bounds_window_witness :
    ((updateShowSize halve ⟨1080, 2340⟩ demoForm).frameSize = ⟨1080, 2340⟩
      ∧ (updateShowSize halve ⟨1080, 2340⟩ demoForm).size
          = showSizeFor halve ⟨1080, 2340⟩ demoForm.desktop
      ∧ (showSizeFor halve ⟨1080, 2340⟩ demoForm.desktop).height
          = min 2340 ((QRect.ofXYWH 0 0 1920 1080).height - 200))
    ∧ (showSizeFor halve ⟨2340, 1080⟩ demoForm.desktop).width
          = min 2340 (QRect.ofXYWH 0 0 1920 1080).width
    ∧ updateShowSize halve ⟨420, 850⟩ demoForm = demoForm :=
  ⟨⟨((updateShowSize_bounds_window halve ⟨1080, 2340⟩ demoForm).1 _ rfl (by decide)).1,
    ((updateShowSize_bounds_window halve ⟨1080, 2340⟩ demoForm).1 _ rfl (by decide)).2.1,
    ((updateShowSize_bounds_window halve ⟨1080, 2340⟩ demoForm).1 _ rfl (by decide)).2.2.1
      (by decide)⟩,
   ((updateShowSize_bounds_window halve ⟨2340, 1080⟩ demoForm).1 _ rfl (by decide)).2.2.2
      (by decide),
   (updateShowSize_bounds_window halve ⟨420, 850⟩ demoForm).2 (by decide)⟩

/-! ### Entering streaming -/

/-- C5: a connect result with `success = true` sets the decoder's device
socket to the server's device socket, then starts the decoder, then sets the
input relay's device socket to the same server socket: these three calls, in
this order, end the handler's call log, after the title and size update.  A
connect result with `success = false` changes nothing, so the decoder socket,
the decoder's running state and the input relay socket stay as they were. -/
theorem connectToResult_wires_consumers (mulRatio : Int → Int) (deviceName : String)
    (size : QSize) (s : VideoForm) :
    ((connectToResult mulRatio true deviceName size s).decoderDeviceSocket
        = s.serverDeviceSocket
      ∧ (connectToResult mulRatio true deviceName size s).decoderStarted = true
      ∧ (connectToResult mulRatio true deviceName size s).inputDeviceSocket
        = s.serverDeviceSocket
      ∧ (connectToResult mulRatio true deviceName size s).calls
        = (updateShowSize mulRatio size (call (Call.setWindowTitle deviceName) s)).calls
          ++ [Call.decoderSetDeviceSocket s.serverDeviceSocket, Call.decoderStartDecode,
              Call.inputSetDeviceSocket s.serverDeviceSocket])
    ∧ ((connectToResult mulRatio false deviceName size s).decoderDeviceSocket
        = s.decoderDeviceSocket
      ∧ (connectToResult mulRatio false deviceName size s).decoderStarted = s.decoderStarted
      ∧ (connectToResult mulRatio false deviceName size s).inputDeviceSocket
        = s.inputDeviceSocket
      ∧ (connectToResult mulRatio false deviceName size s).calls = s.calls) := by
  have hw := (updateShowSize_window mulRatio size (call (Call.setWindowTitle deviceName) s)).1
  have hsock : (updateShowSize mulRatio size
      (call (Call.setWindowTitle deviceName) s)).serverDeviceSocket = s.serverDeviceSocket := by
    rw [hw.2.2.2.2.2.2.2.2.1]; rfl
  constructor
  · simp [connectToResult, decoderSetDeviceSocket, decoderStartDecode, inputSetDeviceSocket,
      call, hsock]
    simpa [call] using hsock
  · simp [connectToResult]

/-! ### New frames -/

/-- C7, as stated, fails in its scenario: on the demo form the connect result
that reports the device size 1080x2340 is what changes the window (it moves
and resizes it), and the first decoded 1080x2340 picture then triggers no
size change: the new-frame handler adds only the show of the video widget,
the lock, the hand-out of the frame, `setFrameSize`, `updateTextures` and the
unlock, none of them a window call, and the window keeps its size and
position. -/
theorem first_frame_no_size_change_demo :
    demoStreaming.frameSize = ⟨1080, 2340⟩
    ∧ Call.resize ⟨440, 880⟩ ∈ added demoForm demoStreaming
    ∧ added demoStreaming (onNewFrame halve demoFrame demoStreaming)
        = [Call.loadingWidgetClose, Call.videoWidgetShow, Call.framesLock,
           Call.framesConsumeRenderedFrame, Call.videoWidgetSetFrameSize ⟨1080, 2340⟩,
           Call.videoWidgetUpdateTextures 4096 8192 12288 1088 544 544, Call.framesUnLock]
    ∧ (added demoStreaming (onNewFrame halve demoFrame demoStreaming)).filter isWindowCall = []
    ∧ (onNewFrame halve demoFrame demoStreaming).size = demoStreaming.size
    ∧ (onNewFrame halve demoFrame demoStreaming).pos = demoStreaming.pos := by
  decide

/-- C7, amended: the new-frame handler, for a consumed frame of width w and
height h, runs `updateShowSize(w, h)` on the locked store before it hands the
frame to the video widget.  Its call log is: the show of the video widget if
it was hidden, the lock, the hand-out of the frame, then the calls of
`updateShowSize(w, h)`, then `setFrameSize(w, h)`, `updateTextures` with the
frame's three planes and strides, and the unlock.  The calls of
`updateShowSize(w, h)` are window calls only; there are none, and the window
keeps its size and position, when (w, h) is the recorded frame size; when
(w, h) differs, the window ends up with the computed show size and, given a
desktop, is centred for it before `setFrameSize`.  Afterwards the recorded
frame size and the video widget's frame size are both (w, h).  In the
scenario where the connect result has already reported 1080x2340, that
result has recorded the size, and the first decoded 1080x2340 picture makes
no size change: it adds only the show, the lock, the hand-out,
`setFrameSize(1080, 2340)`, `updateTextures` and the unlock. -/
theorem onNewFrame_size_update_then_frame (mulRatio : Int → Int) (frame : AVFrame)
    (s : VideoForm) :
    ((onNewFrame mulRatio frame s).calls
        = s.calls
          ++ (if s.videoHidden then [Call.loadingWidgetClose, Call.videoWidgetShow] else [])
          ++ [Call.framesLock, Call.framesConsumeRenderedFrame]
          ++ added (frameLocked s)
              (updateShowSize mulRatio ⟨frame.width, frame.height⟩ (frameLocked s))
          ++ [Call.videoWidgetSetFrameSize ⟨frame.width, frame.height⟩,
              Call.videoWidgetUpdateTextures frame.data0 frame.data1 frame.data2
                frame.linesize0 frame.linesize1 frame.linesize2,
              Call.framesUnLock]
      ∧ (∀ c ∈ added (frameLocked s)
            (updateShowSize mulRatio ⟨frame.width, frame.height⟩ (frameLocked s)),
          isWindowCall c = true)
      ∧ (onNewFrame mulRatio frame s).frameSize = ⟨frame.width, frame.height⟩
      ∧ (onNewFrame mulRatio frame s).videoFrameSize = ⟨frame.width, frame.height⟩)
    ∧ (s.frameSize = ⟨frame.width, frame.height⟩ →
        added (frameLocked s)
            (updateShowSize mulRatio ⟨frame.width, frame.height⟩ (frameLocked s)) = []
        ∧ (onNewFrame mulRatio frame s).size = s.size
        ∧ (onNewFrame mulRatio frame s).pos = s.pos)
    ∧ (s.frameSize ≠ ⟨frame.width, frame.height⟩ →
        (onNewFrame mulRatio frame s).size
          = showSizeFor mulRatio ⟨frame.width, frame.height⟩ s.desktop
        ∧ ∀ screenRect : QRect, s.desktop = some screenRect →
            Call.move (screenRect.center - (QRect.ofXYWH 0 0
                (showSizeFor mulRatio ⟨frame.width, frame.height⟩ s.desktop).width
                (showSizeFor mulRatio ⟨frame.width, frame.height⟩ s.desktop).height).center)
              ∈ added (frameLocked s)
                  (updateShowSize mulRatio ⟨frame.width, frame.height⟩ (frameLocked s)))
    ∧ (∀ deviceName : String,
        (connectToResult mulRatio true deviceName ⟨1080, 2340⟩ s).frameSize = ⟨1080, 2340⟩
        ∧ (onNewFrame mulRatio { frame with width := 1080, height := 2340 }
            (connectToResult mulRatio true deviceName ⟨1080, 2340⟩ s)).calls
          = (connectToResult mulRatio true deviceName ⟨1080, 2340⟩ s).calls
            ++ (if s.videoHidden then [Call.loadingWidgetClose, Call.videoWidgetShow] else [])
            ++ [Call.framesLock, Call.framesConsumeRenderedFrame,
                Call.videoWidgetSetFrameSize ⟨1080, 2340⟩,
                Call.videoWidgetUpdateTextures frame.data0 frame.data1 frame.data2
                  frame.linesize0 frame.linesize1 frame.linesize2,
                Call.framesUnLock]) := by
  have hcalls : ∀ (f : AVFrame) (t : VideoForm),
      (onNewFrame mulRatio f t).calls
        = t.calls
          ++ (if t.videoHidden then [Call.loadingWidgetClose, Call.videoWidgetShow] else [])
          ++ [Call.framesLock, Call.framesConsumeRenderedFrame]
          ++ added (frameLocked t)
              (updateShowSize mulRatio ⟨f.width, f.height⟩ (frameLocked t))
          ++ [Call.videoWidgetSetFrameSize ⟨f.width, f.height⟩,
              Call.videoWidgetUpdateTextures f.data0 f.data1 f.data2
                f.linesize0 f.linesize1 f.linesize2,
              Call.framesUnLock] := by
    intro f t
    have h1 : (onNewFrame mulRatio f t).calls
        = (updateShowSize mulRatio ⟨f.width, f.height⟩ (frameLocked t)).calls
          ++ [Call.videoWidgetSetFrameSize ⟨f.width, f.height⟩,
              Call.videoWidgetUpdateTextures f.data0 f.data1 f.data2
                f.linesize0 f.linesize1 f.linesize2,
              Call.framesUnLock] := by
      simp [onNewFrame, frameLocked, videoWidgetSetFrameSize, call]
    have h2 : (frameLocked t).calls = t.calls
        ++ (if t.videoHidden then [Call.loadingWidgetClose, Call.videoWidgetShow] else [])
        ++ [Call.framesLock, Call.framesConsumeRenderedFrame] := by
      cases hh : t.videoHidden <;> simp [frameLocked, videoWidgetShow, call, hh]
    rw [h1, updateShowSize_calls, h2]
  have hsize : (onNewFrame mulRatio frame s).size
      = (updateShowSize mulRatio ⟨frame.width, frame.height⟩ (frameLocked s)).size := by
    simp [onNewFrame, frameLocked, videoWidgetSetFrameSize, call]
  have hpos : (onNewFrame mulRatio frame s).pos
      = (updateShowSize mulRatio ⟨frame.width, frame.height⟩ (frameLocked s)).pos := by
    simp [onNewFrame, frameLocked, videoWidgetSetFrameSize, call]
  have hlf : ∀ t : VideoForm, (frameLocked t).frameSize = t.frameSize := by
    intro t
    cases hh : t.videoHidden <;> simp [frameLocked, videoWidgetShow, call, hh]
  have hls : (frameLocked s).size = s.size := by
    cases hh : s.videoHidden <;> simp [frameLocked, videoWidgetShow, call, hh]
  have hlp : (frameLocked s).pos = s.pos := by
    cases hh : s.videoHidden <;> simp [frameLocked, videoWidgetShow, call, hh]
  have hld : (frameLocked s).desktop = s.desktop := by
    cases hh : s.videoHidden <;> simp [frameLocked, videoWidgetShow, call, hh]
  refine ⟨⟨hcalls frame s, updateShowSize_added_window mulRatio _ _, ?_, ?_⟩, ?_, ?_, ?_⟩
  · simpa [onNewFrame, videoWidgetSetFrameSize, call] using
      updateShowSize_frameSize mulRatio ⟨frame.width, frame.height⟩ _
  · simp [onNewFrame, videoWidgetSetFrameSize, call]
  · intro h
    have h' : (frameLocked s).frameSize = ⟨frame.width, frame.height⟩ := by rw [hlf, h]
    refine ⟨updateShowSize_added_same mulRatio _ _ h', ?_, ?_⟩
    · rw [hsize, updateShowSize_same mulRatio _ _ h', hls]
    · rw [hpos, updateShowSize_same mulRatio _ _ h', hlp]
  · intro h
    have h' : (frameLocked s).frameSize ≠ ⟨frame.width, frame.height⟩ := by rw [hlf]; exact h
    refine ⟨?_, ?_⟩
    · rw [hsize, updateShowSize_size mulRatio _ _ h', hld]
    · intro screenRect hd
      have := updateShowSize_added_move mulRatio ⟨frame.width, frame.height⟩ (frameLocked s)
        screenRect (by rw [hld, hd]) h'
      rwa [hld] at this
  · intro deviceName
    have hfs : (connectToResult mulRatio true deviceName ⟨1080, 2340⟩ s).frameSize
        = ⟨1080, 2340⟩ := by
      simpa [connectToResult, decoderSetDeviceSocket, decoderStartDecode, inputSetDeviceSocket,
        call] using updateShowSize_frameSize mulRatio ⟨1080, 2340⟩ _
    have hhid : (connectToResult mulRatio true deviceName ⟨1080, 2340⟩ s).videoHidden
        = s.videoHidden := by
      have hw := (updateShowSize_window mulRatio ⟨1080, 2340⟩
        (call (Call.setWindowTitle deviceName) s)).1
      simpa [connectToResult, decoderSetDeviceSocket, decoderStartDecode, inputSetDeviceSocket,
        call] using hw.2.2.2.2.2.1
    refine ⟨hfs, ?_⟩
    have hl : (frameLocked (connectToResult mulRatio true deviceName ⟨1080, 2340⟩ s)).frameSize
        = ⟨1080, 2340⟩ := (hlf _).trans hfs
    rw [hcalls, updateShowSize_added_same mulRatio _ _ hl, hhid]
    simp

/-- Witness for the amended C7: on the streaming demo form the 1080x2340 frame
meets the recorded size and changes no window call, size or position; on the
freshly constructed demo form (recorded size 420x850, desktop 1920x1080) it
differs, and the window is centred for and ends up with the computed show
size. -/
theorem onNewFrame_size_update_then_frame_witness :
    (added (frameLocked demoStreaming)
        (updateShowSize halve ⟨demoFrame.width, demoFrame.height⟩ (frameLocked demoStreaming))
        = []
      ∧ (onNewFrame halve demoFrame demoStreaming).size = demoStreaming.size
      ∧ (onNewFrame halve demoFrame demoStreaming).pos = demoStreaming.pos)
    ∧ ((onNewFrame halve demoFrame demoForm).size
        = showSizeFor halve ⟨demoFrame.width, demoFrame.height⟩ demoForm.desktop
      ∧ Call.move ((QRect.ofXYWH 0 0 1920 1080).center - (QRect.ofXYWH 0 0
            (showSizeFor halve ⟨demoFrame.width, demoFrame.height⟩ demoForm.desktop).width
            (showSizeFor halve ⟨demoFrame.width, demoFrame.height⟩ demoForm.desktop).height).center)
          ∈ added (frameLocked demoForm)
              (updateShowSize halve ⟨demoFrame.width, demoFrame.height⟩
                (frameLocked demoForm))) :=
  ⟨(onNewFrame_size_update_then_frame halve demoFrame demoStreaming).2.1 (by decide),
   ((onNewFrame_size_update_then_frame halve demoFrame demoForm).2.2.1 (by decide)).1,
   ((onNewFrame_size_update_then_frame halve demoFrame demoForm).2.2.1 (by decide)).2 _ rfl⟩

/-! ### Terminal notifications -/

/-- C2, as stated, fails: a server-stop followed by a decode-stop (and a
decode-stop followed by a server-stop) delivered to the streaming demo form
performs `close()` twice, once per notification, not once. -/
theorem both_stops_close_twice_demo :
    closeCalls (deliver halve [Notification.onServerStop, Notification.onDecodeStop]
        demoShowing).calls
      = closeCalls demoShowing.calls + 2
    ∧ closeCalls (deliver halve [Notification.onDecodeStop, Notification.onServerStop]
        demoShowing).calls
      = closeCalls demoShowing.calls + 2
    ∧ closeCalls (deliver halve [Notification.onServerStop, Notification.onDecodeStop]
        demoShowing).calls
      ≠ closeCalls demoShowing.calls + 1 := by
  decide

/-- C2, amended: every delivered terminal notification (server-stop or
decode-stop) performs `close()` once and no other notification performs it:
after any sequence of notifications the number of `close()` calls has grown
by the number of terminal notifications in the sequence. -/
theorem close_once_per_terminal_notification (mulRatio : Int → Int)
    (ns : List Notification) (s : VideoForm) :
    closeCalls (deliver mulRatio ns s).calls
      = closeCalls s.calls + ns.countP Notification.isTerminal := by
  induction ns generalizing s with
  | nil => simp [deliver]
  | cons n ns ih =>
    simp only [deliver, List.foldl_cons] at ih ⊢
    rw [ih, closeCalls_handle, List.countP_cons]
    omega

/-! ### The frame store lock -/

/-- C8: every acquisition of the frame store by the reader is paired with a
release.  The new-frame handler's calls, window calls aside, are the lock,
the hand-out of the rendered frame, `setFrameSize`, `updateTextures` and the
unlock, in this order, so the frame is read only while the lock is held and
the handler gives back the hold it took.  Hence along the call log of every
state reached from the constructor by any sequence of notifications the
discipline is kept and the reader holds nothing at the end, and the
destructor, run in any such state, stops the decoder and de-initialises the
frame store while the reader holds nothing. -/
theorem reader_releases_frame_store (mulRatio : Int → Int) (serial : String)
    (maxSize bitRate : Nat) (ui : UiSetup) (ns : List Notification) :
    (∀ (frame : AVFrame) (s : VideoForm),
      strip (onNewFrame mulRatio frame s).calls
        = strip s.calls
          ++ (if s.videoHidden then [Call.loadingWidgetClose, Call.videoWidgetShow] else [])
          ++ [Call.framesLock, Call.framesConsumeRenderedFrame,
              Call.videoWidgetSetFrameSize ⟨frame.width, frame.height⟩,
              Call.videoWidgetUpdateTextures frame.data0 frame.data1 frame.data2
                frame.linesize0 frame.linesize1 frame.linesize2,
              Call.framesUnLock]
      ∧ ∀ held : Nat,
          readerHolds held (onNewFrame mulRatio frame s).calls = readerHolds held s.calls)
    ∧ readerHolds 0
        (deliver mulRatio ns (construct mulRatio serial maxSize bitRate ui)).calls = some 0
    ∧ readerHolds 0
        (destructor (deliver mulRatio ns (construct mulRatio serial maxSize bitRate ui))).calls
        = some 0 := by
  have hreach : readerHolds 0
      (deliver mulRatio ns (construct mulRatio serial maxSize bitRate ui)).calls = some 0 := by
    rw [readerHolds_deliver, readerHolds_construct]
  refine ⟨?_, hreach, ?_⟩
  · intro frame s
    exact ⟨strip_onNewFrame mulRatio frame s,
      fun held => readerHolds_handle mulRatio held (Notification.onNewFrame frame) s⟩
  · have hd : ∀ t : VideoForm, (destructor t).calls = t.calls ++
        [Call.serverStop, Call.decoderStopDecode, Call.serverDelete, Call.framesDeInit,
         Call.uiDelete] := by
      intro t
      simp [destructor, decoderStopDecode, call]
    rw [hd, readerHolds_append, hreach]
    simp [readerHolds, readerStep]

end VideoForm

end QtScrcpy
